import Mathlib

/-!
# Traversability estimation: formal model of `TraversabilityMap`

A shallow embedding of the traversability evaluation engine of
`traversability_estimation` (class `TraversabilityMap`,
`include/traversability_estimation/TraversabilityMap.hpp`).  The repository
ships only the class declaration; every function body below is modelled from
the specification's description of that member function (doc comments say
which part), with rational numbers in place of IEEE doubles and `Option`
in place of the NaN unknown-sentinel.
-/

namespace TraversabilityEstimation

/-- Error kinds of the engine (spec section 7: `UninitializedInputError`,
`MissingLayerError`, `GeometryMismatchError`, `PipelineError`, `ConfigError`,
`GeometryError`). -/
inductive TravError where
  | uninitializedInput
  | missingLayer
  | geometryMismatch
  | pipelineError
  | configError
  | geometryError
  deriving DecidableEq

/-- Modelled from the spec: a raster of named layers sharing one geometry
(spec section 3, `RasterLayer`).  A cell value of `none` models the reserved
unknown sentinel.  Each layer is stored row-major with `rows * cols` cells. -/
structure GridMap where
  rows : Nat
  cols : Nat
  resolution : ℚ
  originX : ℚ
  originY : ℚ
  frame : String
  layers : List (String × List (Option ℚ))
  deriving DecidableEq

/-- Modelled from the spec: recognized configuration options (spec section 6)
plus the query-time thresholds the member functions read. -/
structure Config where
  traversabilityDefault : ℚ
  traversabilityThreshold : ℚ
  stepHeightThreshold : ℚ
  slopeThreshold : ℚ
  maxInclineAngle : ℚ
  inclinationSampleSpacing : ℚ
  neighborhoodRadius : Nat
  footprintVertices : List (ℚ × ℚ)
  deriving DecidableEq

/-- Look a named layer up in a raster. -/
def getLayer (m : GridMap) (name : String) : Option (List (Option ℚ)) :=
  m.layers.lookup name

/-- All cell indices of a raster, row-major. -/
def allCells (m : GridMap) : List (Nat × Nat) :=
  (List.range m.rows).flatMap (fun r => (List.range m.cols).map (fun c => (r, c)))

/-- World position of the center of cell `(r, c)`. -/
def cellCenter (m : GridMap) (r c : Nat) : ℚ × ℚ :=
  (m.originX + (c + (1 : ℚ) / 2) * m.resolution,
   m.originY + (r + (1 : ℚ) / 2) * m.resolution)

/-- Raw value of the `traversability` layer at a cell (`none` = unknown). -/
def cellValue (m : GridMap) (rc : Nat × Nat) : Option ℚ :=
  (getLayer m "traversability").bind (fun l => l.getD (rc.1 * m.cols + rc.2) none)

/-- Resolved traversability of a cell: unknown cells resolve to the configured
default (spec section 3, invariant on sentinel resolution). -/
def resolvedValue (cfg : Config) (m : GridMap) (rc : Nat × Nat) : ℚ :=
  (cellValue m rc).getD cfg.traversabilityDefault

/-- Edges of a closed polygon given by its vertex list. -/
def polygonEdges (poly : List (ℚ × ℚ)) : List ((ℚ × ℚ) × (ℚ × ℚ)) :=
  poly.zip (poly.drop 1 ++ poly.take 1)

/-- Crossing-number test for one edge: does the horizontal ray from `p`
cross the edge? -/
def edgeCrosses (p : ℚ × ℚ) (e : (ℚ × ℚ) × (ℚ × ℚ)) : Bool :=
  (decide (p.2 < e.1.2) != decide (p.2 < e.2.2)) &&
    decide (p.1 < e.1.1 + (e.2.1 - e.1.1) * (p.2 - e.1.2) / (e.2.2 - e.1.2))

/-- Modelled from the spec: the standard (crossing-number) point-in-polygon
test used by `isTraversable` (spec section 4.3). -/
def pointInPolygon (poly : List (ℚ × ℚ)) (p : ℚ × ℚ) : Bool :=
  ((polygonEdges poly).countP (edgeCrosses p)) % 2 == 1

/-- One step of the aggregation loop over cells: accumulate the resolved value
and the covered-cell count whenever the cell is selected. -/
def regionStep (cfg : Config) (m : GridMap) (sel : Nat × Nat → Bool)
    (acc : ℚ × Nat) (rc : Nat × Nat) : ℚ × Nat :=
  if sel rc then (acc.1 + resolvedValue cfg m rc, acc.2 + 1) else acc

/-- Aggregation loop over the whole raster. -/
def regionFold (cfg : Config) (m : GridMap) (sel : Nat × Nat → Bool) : ℚ × Nat :=
  (allCells m).foldl (regionStep cfg m sel) (0, 0)

/-- Modelled from the spec: generic region query of the Geometry Evaluator
(spec section 4.3) — mean resolved traversability over the selected cells,
verdict by threshold, `GeometryError` when no cell is covered. -/
def regionQuery (cfg : Config) (m : GridMap) (sel : Nat × Nat → Bool) :
    Except TravError (Bool × ℚ) :=
  let acc := regionFold cfg m sel
  if acc.2 = 0 then Except.error TravError.geometryError
  else Except.ok (decide (cfg.traversabilityThreshold ≤ acc.1 / (acc.2 : ℚ)), acc.1 / (acc.2 : ℚ))

/-- Cell selector: the cell center lies strictly inside the polygon. -/
def insidePolygonSel (m : GridMap) (poly : List (ℚ × ℚ)) (rc : Nat × Nat) : Bool :=
  pointInPolygon poly (cellCenter m rc.1 rc.2)

/-- Modelled from the spec: `TraversabilityMap::isTraversable(polygon,&)`
(header lines 121-129; body not in the repository).  Enumerates the raster's
cells, keeps those whose centers lie inside the polygon, scores them by the
mean resolved traversability, and reports `GeometryError` when the polygon
covers no cell. -/
def isTraversable (cfg : Config) (m : GridMap) (poly : List (ℚ × ℚ)) :
    Except TravError (Bool × ℚ) :=
  regionQuery cfg m (insidePolygonSel m poly)

/-- Cell selector for the annulus query: center distance in `[rMin, rMax]`. -/
def annulusSel (m : GridMap) (center : ℚ × ℚ) (rMax rMin : ℚ) (rc : Nat × Nat) : Bool :=
  let p := cellCenter m rc.1 rc.2
  let d2 := (p.1 - center.1) * (p.1 - center.1) + (p.2 - center.2) * (p.2 - center.2)
  decide (d2 ≤ rMax * rMax) && decide (rMin * rMin ≤ d2)

/-- Modelled from the spec: the radius-based overload
`TraversabilityMap::isTraversable(center, radiusMax, &, radiusMin)`
(header line 131), aggregating over an annulus around `center`. -/
def isTraversableRadius (cfg : Config) (m : GridMap) (center : ℚ × ℚ)
    (rMax rMin : ℚ) : Except TravError (Bool × ℚ) :=
  regionQuery cfg m (annulusSel m center rMax rMin)

/-- The cells covered by a polygon: exactly those whose centers lie strictly
inside it (declarative description, for the specification theorems). -/
def coveredCells (m : GridMap) (poly : List (ℚ × ℚ)) : List (Nat × Nat) :=
  (allCells m).filter (insidePolygonSel m poly)

/-- Declarative polygon score: arithmetic mean of the resolved traversability
values of the covered cells. -/
def polygonScore (cfg : Config) (m : GridMap) (poly : List (ℚ × ℚ)) : ℚ :=
  ((coveredCells m poly).map (resolvedValue cfg m)).sum /
    (((coveredCells m poly).length : ℚ))

theorem foldl_regionStep (cfg : Config) (m : GridMap) (sel : Nat × Nat → Bool)
    (l : List (Nat × Nat)) (a : ℚ) (n : Nat) :
    l.foldl (regionStep cfg m sel) (a, n) =
      (a + ((l.filter sel).map (resolvedValue cfg m)).sum, n + (l.filter sel).length) := by
  induction l generalizing a n with
  | nil => simp
  | cons hd tl ih =>
      by_cases h : sel hd
      · simp only [List.foldl_cons, regionStep, h, if_true, List.filter_cons_of_pos,
          List.map_cons, List.sum_cons, List.length_cons, ih, Prod.mk.injEq]
        exact ⟨by ring, by omega⟩
      · simp only [List.foldl_cons, regionStep, h, Bool.false_eq_true, if_false,
          List.filter_cons_of_neg, ih]
        simp [h]

theorem regionFold_eq (cfg : Config) (m : GridMap) (sel : Nat × Nat → Bool) :
    regionFold cfg m sel =
      ((((allCells m).filter sel).map (resolvedValue cfg m)).sum,
        ((allCells m).filter sel).length) := by
  rw [regionFold, foldl_regionStep]
  simp

theorem regionQuery_spec (cfg : Config) (m : GridMap) (sel : Nat × Nat → Bool) :
    (regionQuery cfg m sel = Except.error TravError.geometryError ↔
      (allCells m).filter sel = []) ∧
    (∀ b s, regionQuery cfg m sel = Except.ok (b, s) →
      s = (((allCells m).filter sel).map (resolvedValue cfg m)).sum /
            ((((allCells m).filter sel).length : ℚ)) ∧
      (b = true ↔ cfg.traversabilityThreshold ≤ s)) := by
  unfold regionQuery
  rw [regionFold_eq]
  by_cases h : ((allCells m).filter sel).length = 0
  · simp [h, List.length_eq_zero.mp h]
  · constructor
    · simp only [h, if_false]
      constructor
      · intro hc
        exact absurd hc (by simp)
      · intro hc
        exact absurd (List.length_eq_zero.mpr hc) h
    · intro b s hbs
      simp only [h, if_false] at hbs
      have hpair := Except.ok.inj hbs
      have hb : b = decide (cfg.traversabilityThreshold ≤
          (((allCells m).filter sel).map (resolvedValue cfg m)).sum /
            ((((allCells m).filter sel).length : ℚ))) :=
        (congrArg Prod.fst hpair).symm
      have hs : s = (((allCells m).filter sel).map (resolvedValue cfg m)).sum /
            ((((allCells m).filter sel).length : ℚ)) :=
        (congrArg Prod.snd hpair).symm
      refine ⟨hs, ?_⟩
      rw [hb, hs]
      exact ⟨fun hh => of_decide_eq_true hh, fun hh => decide_eq_true hh⟩

/-- C2: `isTraversable(polygon)` scores the polygon as the arithmetic mean of
the resolved traversability values of exactly the cells whose centers lie
strictly inside the polygon, returns a `false` verdict whenever the score is
below the traversability threshold (the verdict is true exactly when the
threshold is met), and reports `GeometryError` when zero cells are covered. -/
theorem isTraversable_polygon_spec (cfg : Config) (m : GridMap) (poly : List (ℚ × ℚ)) :
    (isTraversable cfg m poly = Except.error TravError.geometryError ↔
      coveredCells m poly = []) ∧
    (∀ b s, isTraversable cfg m poly = Except.ok (b, s) →
      s = polygonScore cfg m poly ∧
      (b = true ↔ cfg.traversabilityThreshold ≤ s)) := by
  have h := regionQuery_spec cfg m (insidePolygonSel m poly)
  rw [isTraversable]
  exact h

/-- Floor of a rational number, computed from its reduced fraction. -/
def ratFloor (q : ℚ) : ℤ :=
  Int.fdiv q.num q.den

/-- Ceiling of a rational number as a natural number (zero when negative). -/
def ratCeilNat (q : ℚ) : Nat :=
  (-(ratFloor (-q))).toNat

/-- Raw value of the `elevation` layer at a cell (`none` = unknown). -/
def elevationCellValue (m : GridMap) (rc : Nat × Nat) : Option ℚ :=
  (getLayer m "elevation").bind (fun l => l.getD (rc.1 * m.cols + rc.2) none)

/-- Index of the cell containing a world position, `none` when off the map. -/
def posToIndex (m : GridMap) (p : ℚ × ℚ) : Option (Nat × Nat) :=
  let c := ratFloor ((p.1 - m.originX) / m.resolution)
  let r := ratFloor ((p.2 - m.originY) / m.resolution)
  if 0 ≤ r ∧ r < m.rows ∧ 0 ≤ c ∧ c < m.cols then some (r.toNat, c.toNat) else none

/-- Elevation at a world position (`none` when unknown or off the map). -/
def elevationAtPos (m : GridMap) (p : ℚ × ℚ) : Option ℚ :=
  (posToIndex m p).bind (fun rc => elevationCellValue m rc)

/-- Chebyshev length of a segment; the sampling metric of the model. -/
def chebDist (a b : ℚ × ℚ) : ℚ :=
  max |b.1 - a.1| |b.2 - a.2|

/-- Number of sampling steps along a segment at the configured fixed spacing. -/
def nSamples (cfg : Config) (a b : ℚ × ℚ) : Nat :=
  ratCeilNat (chebDist a b / cfg.inclinationSampleSpacing)

/-- The `i`-th of `n + 1` evenly spaced sample points of segment `a`-`b`. -/
def samplePoint (a b : ℚ × ℚ) (n i : Nat) : ℚ × ℚ :=
  (a.1 + (b.1 - a.1) * (i : ℚ) / (n : ℚ), a.2 + (b.2 - a.2) * (i : ℚ) / (n : ℚ))

/-- One sampling step of the inclination check: the local slope between two
consecutive samples must not exceed the configured maximum incline; samples
with unknown elevation are skipped. -/
def inclinationSampleOk (cfg : Config) (em : GridMap) (a b : ℚ × ℚ) (n i : Nat) : Bool :=
  match elevationAtPos em (samplePoint a b n i), elevationAtPos em (samplePoint a b n (i + 1)) with
  | some h1, some h2 =>
      decide (|h2 - h1| / (chebDist a b / (n : ℚ)) ≤ cfg.maxInclineAngle)
  | _, _ => true

/-- Modelled from the spec: `TraversabilityMap::checkInclination(start, end)`
(header lines 133-141; body not in the repository).  Samples the segment at
fixed spacing and fails as soon as one local slope exceeds the configured
maximum incline (spec section 4.3). -/
def checkInclination (cfg : Config) (em : GridMap) (a b : ℚ × ℚ) : Bool :=
  (List.range (nSamples cfg a b)).all (inclinationSampleOk cfg em a b (nSamples cfg a b))

theorem nSamples_self (cfg : Config) (a : ℚ × ℚ) : nSamples cfg a a = 0 := by
  unfold nSamples chebDist
  simp [ratCeilNat, ratFloor, Int.fdiv]

/-- C8: `checkInclination` passes on a degenerate segment (`start = end`) and,
for every nonnegative configured maximum incline, passes whenever every
sampled elevation along the segment is equal. -/
theorem checkInclination_degenerate_and_flat (cfg : Config) (em : GridMap)
    (a b : ℚ × ℚ) :
    (a = b → checkInclination cfg em a b = true) ∧
    (0 ≤ cfg.maxInclineAngle →
      (∀ i, i ≤ nSamples cfg a b → ∀ j, j ≤ nSamples cfg a b →
        elevationAtPos em (samplePoint a b (nSamples cfg a b) i) =
          elevationAtPos em (samplePoint a b (nSamples cfg a b) j)) →
      checkInclination cfg em a b = true) := by
  constructor
  · intro hab
    subst hab
    unfold checkInclination
    rw [nSamples_self]
    rfl
  · intro hT hflat
    unfold checkInclination
    rw [List.all_eq_true]
    intro i hi
    rw [List.mem_range] at hi
    have h := hflat i (Nat.le_of_lt hi) (i + 1) hi
    unfold inclinationSampleOk
    rw [h]
    cases helev : elevationAtPos em (samplePoint a b (nSamples cfg a b) (i + 1)) with
    | none => rfl
    | some v =>
        simp only []
        rw [sub_self, abs_zero, zero_div]
        exact decide_eq_true hT

/-- A path waypoint: 2D position plus the footprint rotation at that pose,
given by the cosine and sine of its yaw angle. -/
structure Waypoint where
  pos : ℚ × ℚ
  rot : ℚ × ℚ
  deriving DecidableEq

/-- Modelled from the spec: `traversability_msgs::FootprintPath` — ordered
waypoints plus a radius that, when positive, selects the radius-based query
instead of the footprint polygon (spec section 3). -/
structure FootprintPath where
  waypoints : List Waypoint
  radius : ℚ
  deriving DecidableEq

/-- Modelled from the spec: `traversability_msgs::TraversabilityResult` —
overall verdict, aggregate score, and per-waypoint scores (spec section 3). -/
structure TraversabilityResult where
  traversable : Bool
  score : ℚ
  perWaypoint : List ℚ
  deriving DecidableEq

/-- The footprint polygon placed at a waypoint's pose: each configured vertex
rotated by the waypoint's yaw and translated to its position. -/
def footprintPolygonAt (cfg : Config) (wp : Waypoint) : List (ℚ × ℚ) :=
  cfg.footprintVertices.map (fun v =>
    (wp.pos.1 + wp.rot.1 * v.1 - wp.rot.2 * v.2,
     wp.pos.2 + wp.rot.2 * v.1 + wp.rot.1 * v.2))

/-- Per-waypoint check of `checkFootprintPath`: polygon query (or radius query
when the path carries a positive radius); a query failure counts as a failed
waypoint with score zero. -/
def checkWaypoint (cfg : Config) (tm : GridMap) (radius : ℚ) (wp : Waypoint) : Bool × ℚ :=
  match (if 0 < radius then isTraversableRadius cfg tm wp.pos radius 0
         else isTraversable cfg tm (footprintPolygonAt cfg wp)) with
  | Except.ok r => r
  | Except.error _ => (false, 0)

/-- Aggregation loop of `checkFootprintPath` over the waypoint list: conjoins
the per-waypoint verdicts and the inclination checks of each segment to the
next waypoint, and accumulates the per-waypoint scores and their sum. -/
def checkPathRec (cfg : Config) (tm em : GridMap) (radius : ℚ) :
    List Waypoint → Bool × ℚ × List ℚ
  | [] => (true, 0, [])
  | wp :: rest =>
      let c := checkWaypoint cfg tm radius wp
      let inclOk := match rest with
        | [] => true
        | next :: _ => checkInclination cfg em wp.pos next.pos
      let r := checkPathRec cfg tm em radius rest
      (c.1 && inclOk && r.1, c.2 + r.2.1, c.2 :: r.2.2)

/-- Modelled from the spec: `TraversabilityMap::checkFootprintPath(path, &)`
(header lines 61-67; body not in the repository).  Checks every waypoint's
footprint and every segment's inclination; the aggregate score is the mean of
the per-waypoint scores (spec section 4.3). -/
def checkFootprintPath (cfg : Config) (tm em : GridMap) (path : FootprintPath) :
    TraversabilityResult :=
  let r := checkPathRec cfg tm em path.radius path.waypoints
  { traversable := r.1, score := r.2.1 / (r.2.2.length : ℚ), perWaypoint := r.2.2 }

/-- Declarative per-waypoint scores of a path. -/
def waypointScores (cfg : Config) (tm : GridMap) (radius : ℚ) (l : List Waypoint) : List ℚ :=
  l.map (fun wp => (checkWaypoint cfg tm radius wp).2)

theorem checkPathRec_eq (cfg : Config) (tm em : GridMap) (radius : ℚ) (l : List Waypoint) :
    checkPathRec cfg tm em radius l =
      (l.all (fun wp => (checkWaypoint cfg tm radius wp).1) &&
         (l.zip l.tail).all (fun pq => checkInclination cfg em pq.1.pos pq.2.pos),
       (waypointScores cfg tm radius l).sum,
       waypointScores cfg tm radius l) := by
  induction l with
  | nil => simp [checkPathRec, waypointScores]
  | cons wp rest ih =>
      cases rest with
      | nil => simp [checkPathRec, waypointScores]
      | cons next rest2 =>
          rw [checkPathRec, ih]
          simp only [List.all_cons, List.tail_cons, List.zip_cons_cons, waypointScores,
            List.map_cons, List.sum_cons, Prod.mk.injEq]
          refine ⟨?_, trivial⟩
          cases (checkWaypoint cfg tm radius wp).1 <;>
            cases checkInclination cfg em wp.pos next.pos <;>
            cases (checkWaypoint cfg tm radius next).1 <;> simp

/-- C1: the verdict of `checkFootprintPath` is true exactly when every
per-waypoint footprint (or radius) check and every segment inclination check
passes, while the aggregate score always equals the arithmetic mean of the
per-waypoint scores — also when the verdict is false. -/
theorem checkFootprintPath_spec (cfg : Config) (tm em : GridMap) (path : FootprintPath) :
    ((checkFootprintPath cfg tm em path).traversable = true ↔
      ((∀ wp ∈ path.waypoints, (checkWaypoint cfg tm path.radius wp).1 = true) ∧
       (∀ pq ∈ path.waypoints.zip path.waypoints.tail,
          checkInclination cfg em pq.1.pos pq.2.pos = true))) ∧
    (checkFootprintPath cfg tm em path).score =
      (waypointScores cfg tm path.radius path.waypoints).sum /
        ((waypointScores cfg tm path.radius path.waypoints).length : ℚ) ∧
    (checkFootprintPath cfg tm em path).perWaypoint =
      waypointScores cfg tm path.radius path.waypoints := by
  unfold checkFootprintPath
  rw [checkPathRec_eq]
  refine ⟨?_, rfl, rfl⟩
  simp [List.all_eq_true]

/-- The layers a traversability raster must carry (spec section 6). -/
def requiredTravLayers : List String :=
  ["traversability", "step", "slope", "roughness"]

/-- Does the raster carry a layer of this name? -/
def hasLayer (m : GridMap) (name : String) : Bool :=
  (getLayer m name).isSome

/-- Geometric consistency of two rasters: same dimensions, resolution, origin
and reference frame (spec section 3 invariants). -/
def geomMatch (a b : GridMap) : Bool :=
  a.rows == b.rows && a.cols == b.cols && decide (a.resolution = b.resolution) &&
    decide (a.originX = b.originX) && decide (a.originY = b.originY) && a.frame == b.frame

/-- The mutable state of `TraversabilityMap`: the two stored rasters (absent
until initialized) and the bookkeeping counters `nTraversable_`,
`nNotTraversable_` (header lines 192-203). -/
structure TravState where
  elevationMap : Option GridMap
  traversabilityMap : Option GridMap
  nTraversable : Nat
  nNotTraversable : Nat
  deriving DecidableEq

/-- The state after construction: no raster ingested, counters zero. -/
def initialState : TravState :=
  { elevationMap := none, traversabilityMap := none, nTraversable := 0, nNotTraversable := 0 }

/-- Modelled from the spec: `TraversabilityMap::setElevationMap(msg)` (header
lines 92-97; body not in the repository).  Validates the required `elevation`
layer and geometric consistency with the stored traversability raster, then
atomically replaces the stored elevation raster (spec section 4.1). -/
def setElevationMap (snap : GridMap) (s : TravState) : TravState × Option TravError :=
  if hasLayer snap "elevation" then
    match s.traversabilityMap with
    | some t =>
        if geomMatch snap t then ({ s with elevationMap := some snap }, none)
        else (s, some TravError.geometryMismatch)
    | none => ({ s with elevationMap := some snap }, none)
  else (s, some TravError.missingLayer)

/-- Modelled from the spec: `TraversabilityMap::setTraversabilityMap(msg)`
(header lines 84-90; body not in the repository).  Validates the required
layer set and geometric consistency with the stored elevation raster, then
atomically replaces the stored traversability raster (spec section 4.1). -/
def setTraversabilityMap (snap : GridMap) (s : TravState) : TravState × Option TravError :=
  if requiredTravLayers.all (hasLayer snap) then
    match s.elevationMap with
    | some e =>
        if geomMatch snap e then ({ s with traversabilityMap := some snap }, none)
        else (s, some TravError.geometryMismatch)
    | none => ({ s with traversabilityMap := some snap }, none)
  else (s, some TravError.missingLayer)

/-- Modelled from the spec: `TraversabilityMap::getTraversabilityMap()`
(header lines 99-103) — a snapshot of the stored traversability raster;
queries against an uninitialized raster fail explicitly (spec section 3). -/
def getTraversabilityMap (s : TravState) : Except TravError GridMap :=
  match s.traversabilityMap with
  | some t => Except.ok t
  | none => Except.error TravError.uninitializedInput

/-- Is this cell value known and at least the traversability threshold? -/
def isKnownTraversable (cfg : Config) (o : Option ℚ) : Bool :=
  match o with
  | some v => decide (cfg.traversabilityThreshold ≤ v)
  | none => false

/-- Is this cell value known and below the traversability threshold? -/
def isKnownNotTraversable (cfg : Config) (o : Option ℚ) : Bool :=
  match o with
  | some v => decide (v < cfg.traversabilityThreshold)
  | none => false

/-- Number of known cells counted as traversable. -/
def countTraversable (cfg : Config) (vals : List (Option ℚ)) : Nat :=
  vals.countP (isKnownTraversable cfg)

/-- Number of known cells counted as non-traversable. -/
def countNotTraversable (cfg : Config) (vals : List (Option ℚ)) : Nat :=
  vals.countP (isKnownNotTraversable cfg)

/-- Number of cells whose value is known (not the unknown sentinel). -/
def knownCount (vals : List (Option ℚ)) : Nat :=
  vals.countP (fun o => o.isSome)

/-- The `traversability` layer values of the stored traversability raster. -/
def travValues (s : TravState) : List (Option ℚ) :=
  match s.traversabilityMap with
  | some tm => (getLayer tm "traversability").getD []
  | none => []

/-- Modelled from the spec: the external derivation pipeline (spec sections 2
and 6), an opaque, deterministic transform from the elevation raster to a set
of derived layers, or a stage-level failure. -/
abbrev Pipeline : Type :=
  GridMap → Except TravError (List (String × List (Option ℚ)))

/-- The traversability raster built on the elevation raster's geometry from
the pipeline's derived layers. -/
def mkTravMap (elev : GridMap) (derived : List (String × List (Option ℚ))) : GridMap :=
  { rows := elev.rows, cols := elev.cols, resolution := elev.resolution,
    originX := elev.originX, originY := elev.originY, frame := elev.frame,
    layers := derived }

/-- The `traversability` values the freshly built raster carries. -/
def derivedTravValues (elev : GridMap) (derived : List (String × List (Option ℚ))) :
    List (Option ℚ) :=
  (getLayer (mkTravMap elev derived) "traversability").getD []

/-- Modelled from the spec: `TraversabilityMap::computeTraversability()`
(header lines 53-59; body not in the repository).  Requires an initialized
elevation raster, invokes the external pipeline, validates its layer set,
then atomically swaps in the new traversability raster and updates the
counters (spec section 4.1). -/
def computeTraversability (cfg : Config) (pipe : Pipeline) (s : TravState) :
    TravState × Option TravError :=
  match s.elevationMap with
  | none => (s, some TravError.uninitializedInput)
  | some elev =>
      match pipe elev with
      | Except.error _ => (s, some TravError.pipelineError)
      | Except.ok derived =>
          if requiredTravLayers.all (fun n => (derived.lookup n).isSome) then
            ({ elevationMap := some elev,
               traversabilityMap := some (mkTravMap elev derived),
               nTraversable := countTraversable cfg (derivedTravValues elev derived),
               nNotTraversable := countNotTraversable cfg (derivedTravValues elev derived) },
             none)
          else (s, some TravError.pipelineError)

/-- Modelled from the spec: `TraversabilityMap::printTraversableFraction()`
(header line 107; body not in the repository) reports
`nTraversable / (nTraversable + nNotTraversable)`, with no guard on the
denominator stated (spec section 4.1). -/
def printTraversableFraction (s : TravState) : ℚ :=
  (s.nTraversable : ℚ) / ((s.nTraversable : ℚ) + (s.nNotTraversable : ℚ))

/-- The denominator `printTraversableFraction` divides by. -/
def fractionDenominator (s : TravState) : Nat :=
  s.nTraversable + s.nNotTraversable

/-- States reachable from the initial state through the engine's mutating
operations. -/
inductive Reachable : TravState → Prop where
  | init : Reachable initialState
  | setElev (snap : GridMap) (s : TravState) :
      Reachable s → Reachable (setElevationMap snap s).1
  | setTrav (snap : GridMap) (s : TravState) :
      Reachable s → Reachable (setTraversabilityMap snap s).1
  | compute (cfg : Config) (pipe : Pipeline) (s : TravState) :
      Reachable s → Reachable (computeTraversability cfg pipe s).1

/-- Every successful `computeTraversability` has this shape: elevation raster
present, pipeline succeeded with a complete layer set, and the new state is
built from its output. -/
theorem computeTraversability_ok_shape (cfg : Config) (pipe : Pipeline) (s s1 : TravState)
    (h : computeTraversability cfg pipe s = (s1, none)) :
    ∃ elev derived, s.elevationMap = some elev ∧ pipe elev = Except.ok derived ∧
      requiredTravLayers.all (fun n => (derived.lookup n).isSome) = true ∧
      s1 = { elevationMap := some elev,
             traversabilityMap := some (mkTravMap elev derived),
             nTraversable := countTraversable cfg (derivedTravValues elev derived),
             nNotTraversable := countNotTraversable cfg (derivedTravValues elev derived) } := by
  unfold computeTraversability at h
  split at h
  · exact absurd (congrArg Prod.snd h) (by simp)
  · rename_i elev helev
    split at h
    · exact absurd (congrArg Prod.snd h) (by simp)
    · rename_i derived hp
      split at h
      · rename_i hreq
        exact ⟨elev, derived, helev, hp, hreq, (congrArg Prod.fst h).symm⟩
      · exact absurd (congrArg Prod.snd h) (by simp)

/-- C3: ingestion and compute fail atomically — whenever `setElevationMap`,
`setTraversabilityMap` or `computeTraversability` reports an error, the state,
and with it both stored rasters, is returned unchanged and remains queryable. -/
theorem ingestion_compute_atomic (cfg : Config) (pipe : Pipeline) (snap : GridMap)
    (s : TravState) :
    ((setElevationMap snap s).2.isSome → (setElevationMap snap s).1 = s) ∧
    ((setTraversabilityMap snap s).2.isSome → (setTraversabilityMap snap s).1 = s) ∧
    ((computeTraversability cfg pipe s).2.isSome → (computeTraversability cfg pipe s).1 = s) := by
  refine ⟨?_, ?_, ?_⟩
  · unfold setElevationMap
    split
    · split
      · split <;> simp
      · simp
    · simp
  · unfold setTraversabilityMap
    split
    · split
      · split <;> simp
      · simp
    · simp
  · unfold computeTraversability
    split
    · simp
    · split
      · simp
      · split <;> simp

/-- C5: calling `computeTraversability` twice in succession with the same
pipeline and with the elevation raster unchanged in between (the engine does
not mutate it) yields a second state whose traversability layers equal the
first's exactly. -/
theorem computeTraversability_idempotent (cfg : Config) (pipe : Pipeline)
    (s s1 s2 : TravState)
    (h1 : computeTraversability cfg pipe s = (s1, none))
    (h2 : computeTraversability cfg pipe s1 = (s2, none)) :
    s2.traversabilityMap = s1.traversabilityMap := by
  obtain ⟨elev, derived, _helev, hp, _hreq, hs1⟩ :=
    computeTraversability_ok_shape cfg pipe s s1 h1
  obtain ⟨elev2, derived2, helev2, hp2, _hreq2, hs2⟩ :=
    computeTraversability_ok_shape cfg pipe s1 s2 h2
  have he : elev2 = elev := by
    rw [hs1] at helev2
    exact (Option.some.inj helev2).symm
  subst he
  have hd : derived2 = derived := by
    rw [hp] at hp2
    exact (Except.ok.inj hp2).symm
  subst hd
  rw [hs1, hs2]

/-- C6: `setTraversabilityMap` followed by `getTraversabilityMap` returns the
ingested raster unchanged — an exact layer-wise round trip (hence within any
floating-point epsilon). -/
theorem setTraversabilityMap_roundTrip (snap : GridMap) (s s1 : TravState)
    (h : setTraversabilityMap snap s = (s1, none)) :
    getTraversabilityMap s1 = Except.ok snap := by
  unfold setTraversabilityMap at h
  split at h
  · split at h
    · split at h
      · injection h with h1 h2
        rw [← h1]
        rfl
      · exact absurd (congrArg Prod.snd h) (by simp)
    · injection h with h1 h2
      rw [← h1]
      rfl
  · exact absurd (congrArg Prod.snd h) (by simp)

theorem count_partition (cfg : Config) (l : List (Option ℚ)) :
    countTraversable cfg l + countNotTraversable cfg l = knownCount l := by
  induction l with
  | nil => rfl
  | cons o t ih =>
      unfold countTraversable countNotTraversable knownCount at ih ⊢
      rw [List.countP_cons, List.countP_cons, List.countP_cons]
      cases o with
      | none => simpa [isKnownTraversable, isKnownNotTraversable] using ih
      | some v =>
          rcases le_or_lt cfg.traversabilityThreshold v with hv | hv
          · have hv2 : ¬ v < cfg.traversabilityThreshold := not_lt.mpr hv
            simp [isKnownTraversable, isKnownNotTraversable, hv, hv2]
            omega
          · have hv2 : ¬ cfg.traversabilityThreshold ≤ v := not_le.mpr hv
            simp [isKnownTraversable, isKnownNotTraversable, hv, hv2]
            omega

/-- C7: after every successful `computeTraversability`, the counters
`nTraversable` and `nNotTraversable` sum to the number of cells of the
`traversability` layer whose value is known (not the unknown sentinel). -/
theorem computeTraversability_counter_consistency (cfg : Config) (pipe : Pipeline)
    (s s1 : TravState) (h : computeTraversability cfg pipe s = (s1, none)) :
    s1.nTraversable + s1.nNotTraversable = knownCount (travValues s1) := by
  obtain ⟨elev, derived, _helev, _hp, _hreq, hs1⟩ :=
    computeTraversability_ok_shape cfg pipe s s1 h
  subst hs1
  have : travValues
      { elevationMap := some elev,
        traversabilityMap := some (mkTravMap elev derived),
        nTraversable := countTraversable cfg (derivedTravValues elev derived),
        nNotTraversable := countNotTraversable cfg (derivedTravValues elev derived) } =
      derivedTravValues elev derived := rfl
  rw [this]
  exact count_partition cfg (derivedTravValues elev derived)

/-- C10 as stated is refuted: the initial state is reachable (no compute has
happened yet), both counters are zero there, and the spec's formula for
`printTraversableFraction` divides by `nTraversable + nNotTraversable`
unguarded — so the division's denominator is zero in a reachable state. -/
theorem printTraversableFraction_unguarded_at_init :
    Reachable initialState ∧ fractionDenominator initialState = 0 :=
  ⟨Reachable.init, rfl⟩

/-- C10 amended: after a successful `computeTraversability` whose
`traversability` layer holds at least one known cell, the denominator of the
reported fraction is nonzero, so the division is safe there. -/
theorem printTraversableFraction_denominator_after_compute (cfg : Config)
    (pipe : Pipeline) (s s1 : TravState)
    (h : computeTraversability cfg pipe s = (s1, none))
    (hk : 0 < knownCount (travValues s1)) :
    fractionDenominator s1 ≠ 0 := by
  obtain ⟨elev, derived, _helev, _hp, _hreq, hs1⟩ :=
    computeTraversability_ok_shape cfg pipe s s1 h
  have hsum : s1.nTraversable + s1.nNotTraversable = knownCount (travValues s1) := by
    subst hs1
    exact count_partition cfg (derivedTravValues elev derived)
  unfold fractionDenominator
  omega

/-- Traversability score of the footprint polygon placed at a cell's center
under rotation `rot` (cosine/sine pair); `none` when the polygon query
reports an error. -/
def footprintScoreAt (cfg : Config) (m : GridMap) (rot : ℚ × ℚ) (rc : Nat × Nat) : Option ℚ :=
  match isTraversable cfg m (footprintPolygonAt cfg { pos := cellCenter m rc.1 rc.2, rot := rot }) with
  | Except.ok r => some r.2
  | Except.error _ => none

/-- A precomputed footprint layer: the footprint score at every cell of the
raster for one fixed rotation. -/
def footprintLayer (cfg : Config) (m : GridMap) (rot : ℚ × ℚ) : List (Option ℚ) :=
  (allCells m).map (footprintScoreAt cfg m rot)

/-- Replace a named layer in a layer list, appending it when absent. -/
def setLayerList (l : List (String × List (Option ℚ))) (n : String)
    (v : List (Option ℚ)) : List (String × List (Option ℚ)) :=
  match l with
  | [] => [(n, v)]
  | p :: rest => if p.1 = n then (n, v) :: rest else p :: setLayerList rest n v

/-- Replace (or add) a named layer of a raster. -/
def setLayer (m : GridMap) (n : String) (v : List (Option ℚ)) : GridMap :=
  { m with layers := setLayerList m.layers n v }

/-- The x-direction orientation: yaw zero, as a cosine/sine pair. -/
def xOrientation : ℚ × ℚ := (1, 0)

/-- Modelled from the header's own documentation (TraversabilityMap.hpp lines
69-76; body not in the repository): `traversabilityFootprint(footprintYaw)`
computes the traversability of the footprint at each map cell position twice —
first oriented in x-direction, and second oriented according to the yaw
angle — writing the x-oriented scores into the fixed-orientation precomputed
layer and the yaw-oriented scores into the yaw-oriented precomputed layer
(spec section 4.4 names the two layers).  The yaw angle is represented by its
cosine/sine pair `rot`. -/
def traversabilityFootprint (cfg : Config) (rot : ℚ × ℚ) (m : GridMap) : GridMap :=
  setLayer (setLayer m "footprint_fixed" (footprintLayer cfg m xOrientation))
    "footprint_oriented" (footprintLayer cfg m rot)

theorem lookup_setLayerList_same (l : List (String × List (Option ℚ)))
    (n : String) (v : List (Option ℚ)) :
    (setLayerList l n v).lookup n = some v := by
  induction l with
  | nil => simp [setLayerList, List.lookup]
  | cons p rest ih =>
      by_cases h : p.1 = n
      · simp [setLayerList, h, List.lookup]
      · simp only [setLayerList, h, if_false]
        rw [List.lookup]
        have : (n == p.1) = false := by
          simp [Ne.symm h]
        rw [this]
        exact ih

theorem lookup_setLayerList_other (l : List (String × List (Option ℚ)))
    (n n' : String) (v : List (Option ℚ)) (hne : n' ≠ n) :
    (setLayerList l n v).lookup n' = l.lookup n' := by
  induction l with
  | nil =>
      have h1 : (n' == n) = false := by simp [hne]
      simp [setLayerList, List.lookup, h1]
  | cons p rest ih =>
      by_cases h : p.1 = n
      · rw [setLayerList]
        simp only [h, if_true]
        rw [List.lookup, List.lookup]
        have h1 : (n' == n) = false := by simp [hne]
        have h2 : (n' == p.1) = false := by simp [h ▸ hne]
        rw [h1, h2]
      · rw [setLayerList]
        simp only [h, if_false]
        rw [List.lookup, List.lookup]
        cases hq : (n' == p.1) with
        | true => rfl
        | false => exact ih

theorem getLayer_setLayer_same (m : GridMap) (n : String) (v : List (Option ℚ)) :
    getLayer (setLayer m n v) n = some v :=
  lookup_setLayerList_same m.layers n v

theorem getLayer_setLayer_other (m : GridMap) (n n' : String) (v : List (Option ℚ))
    (hne : n' ≠ n) : getLayer (setLayer m n v) n' = getLayer m n' :=
  lookup_setLayerList_other m.layers n n' v hne

/-- C4 as stated is refuted at a concrete input: on a one-cell raster,
`traversabilityFootprint` also writes the yaw-oriented precomputed layer —
the layer of the other orientation convention does not stay unchanged. -/
theorem traversabilityFootprint_writes_oriented_layer :
    getLayer
        (traversabilityFootprint
          { traversabilityDefault := 1/2, traversabilityThreshold := 1/2,
            stepHeightThreshold := 1/10, slopeThreshold := 3/10,
            maxInclineAngle := 1, inclinationSampleSpacing := 1,
            neighborhoodRadius := 2,
            footprintVertices := [(-1, -1), (1, -1), (1, 1), (-1, 1)] }
          (0, 1)
          { rows := 1, cols := 1, resolution := 1, originX := 0, originY := 0,
            frame := "map",
            layers := [("traversability", [some 1])] })
        "footprint_oriented" ≠
      getLayer
        { rows := 1, cols := 1, resolution := 1, originX := 0, originY := 0,
          frame := "map",
          layers := [("traversability", [some 1])] }
        "footprint_oriented" := by
  with_unfolding_all decide

/-- C4 amended: `traversabilityFootprint(yaw)` evaluates the footprint at
every cell twice — once oriented in x-direction and once at `yaw` — writing
the x-oriented scores into the fixed-orientation layer `footprint_fixed`, the
yaw-oriented scores into `footprint_oriented`, and leaving every other layer
unchanged. -/
theorem traversabilityFootprint_spec (cfg : Config) (rot : ℚ × ℚ) (m : GridMap) :
    getLayer (traversabilityFootprint cfg rot m) "footprint_fixed" =
        some (footprintLayer cfg m xOrientation) ∧
    getLayer (traversabilityFootprint cfg rot m) "footprint_oriented" =
        some (footprintLayer cfg m rot) ∧
    (∀ n, n ≠ "footprint_fixed" → n ≠ "footprint_oriented" →
      getLayer (traversabilityFootprint cfg rot m) n = getLayer m n) := by
  refine ⟨?_, ?_, ?_⟩
  · unfold traversabilityFootprint
    rw [getLayer_setLayer_other _ _ _ _ (by decide)]
    exact getLayer_setLayer_same _ _ _
  · exact getLayer_setLayer_same _ _ _
  · intro n h1 h2
    unfold traversabilityFootprint
    rw [getLayer_setLayer_other _ _ _ _ h2]
    exact getLayer_setLayer_other _ _ _ _ h1

/-- Elevation at a signed cell index; `none` outside the raster. -/
def elevAtIdxZ (m : GridMap) (r c : ℤ) : Option ℚ :=
  if 0 ≤ r ∧ r < m.rows ∧ 0 ≤ c ∧ c < m.cols then
    elevationCellValue m (r.toNat, c.toNat)
  else none

/-- The four axis directions in which the step check scans the neighborhood. -/
def stepDirections : List (ℤ × ℤ) := [(1, 0), (-1, 0), (0, 1), (0, -1)]

/-- Is there, within the clearance-derived neighborhood radius in direction
`d`, a supported elevation rise above the step-height threshold — a rise
confirmed by two consecutive neighbor cells on that side? -/
def supportedRise (cfg : Config) (m : GridMap) (r c : ℤ) (d : ℤ × ℤ) : Bool :=
  (List.range cfg.neighborhoodRadius).any (fun k =>
    match elevAtIdxZ m r c,
          elevAtIdxZ m (r + ((k : ℤ) + 1) * d.1) (c + ((k : ℤ) + 1) * d.2),
          elevAtIdxZ m (r + ((k : ℤ) + 2) * d.1) (c + ((k : ℤ) + 2) * d.2) with
    | some h, some a, some b =>
        decide (cfg.stepHeightThreshold < a - h) && decide (cfg.stepHeightThreshold < b - h)
    | _, _, _ => false)

/-- Modelled from the spec: `TraversabilityMap::checkForStep(index)` (header
lines 143-150; body not in the repository).  Examines the fixed-radius
neighborhood of the cell; a step is detected only when some direction shows a
supported discontinuity — an elevation rise above the step-height threshold
confirmed by two consecutive cells on that side — so small one-cell ditches
and holes are not detected as steps (spec section 4.2). -/
def checkForStep (cfg : Config) (m : GridMap) (r c : ℤ) : Bool :=
  !(stepDirections.any (supportedRise cfg m r c))

/-- A `rows × cols` elevation raster, flat at height `base` except for a
single pit cell of height `pit` at `(pr, pc)`. -/
def pitMap (rows cols pr pc : Nat) (base pit : ℚ) : GridMap :=
  { rows := rows, cols := cols, resolution := 1, originX := 0, originY := 0,
    frame := "map",
    layers := [("elevation",
      (List.range (rows * cols)).map
        (fun i => some (if i = pr * cols + pc then pit else base)))] }

theorem pitMap_value_bounds (rows cols pr pc : Nat) (base pit : ℚ)
    (hle : pit ≤ base) (r c : ℤ) (v : ℚ)
    (hv : elevAtIdxZ (pitMap rows cols pr pc base pit) r c = some v) :
    pit ≤ v ∧ v ≤ base := by
  unfold elevAtIdxZ at hv
  split at hv
  · unfold elevationCellValue getLayer pitMap at hv
    simp only [List.lookup] at hv
    rw [show (("elevation" : String) == "elevation") = true from by decide] at hv
    rw [Option.some_bind] at hv
    rw [List.getD_eq_getElem?_getD, List.getElem?_map] at hv
    cases hidx : (List.range (rows * cols))[r.toNat * cols + c.toNat]? with
    | none => rw [hidx] at hv; exact absurd hv (by simp)
    | some i =>
        rw [hidx] at hv
        simp only [Option.map_some', Option.getD_some, Option.some.injEq] at hv
        by_cases hpit : i = pr * cols + pc
        · rw [if_pos hpit] at hv
          exact ⟨le_of_eq hv, hv ▸ hle⟩
        · rw [if_neg hpit] at hv
          exact ⟨hv ▸ hle, le_of_eq hv.symm⟩
  · exact absurd hv (by simp)

/-- C9: on a raster flat except for a single one-cell pit whose neighbors do
not confirm a supported discontinuity above the step-height threshold (the
pit depth does not exceed it), `checkForStep` passes at every index — the
one-cell pit is rejected as noise. -/
theorem checkForStep_pit_rejected (cfg : Config) (rows cols pr pc : Nat)
    (base pit : ℚ) (hle : pit ≤ base)
    (hdepth : base - pit ≤ cfg.stepHeightThreshold) (r c : ℤ) :
    checkForStep cfg (pitMap rows cols pr pc base pit) r c = true := by
  unfold checkForStep
  rw [Bool.not_eq_true']
  rw [List.any_eq_false]
  intro d _hd
  rw [Bool.not_eq_true]
  unfold supportedRise
  rw [List.any_eq_false]
  intro k _hk
  rw [Bool.not_eq_true]
  cases hh : elevAtIdxZ (pitMap rows cols pr pc base pit) r c with
  | none => rfl
  | some h =>
      cases ha : elevAtIdxZ (pitMap rows cols pr pc base pit)
          (r + ((k : ℤ) + 1) * d.1) (c + ((k : ℤ) + 1) * d.2) with
      | none => rfl
      | some a =>
          cases hb : elevAtIdxZ (pitMap rows cols pr pc base pit)
              (r + ((k : ℤ) + 2) * d.1) (c + ((k : ℤ) + 2) * d.2) with
          | none => rfl
          | some b =>
              simp only []
              obtain ⟨hh1, _hh2⟩ := pitMap_value_bounds rows cols pr pc base pit hle r c h hh
              obtain ⟨_ha1, ha2⟩ := pitMap_value_bounds rows cols pr pc base pit hle _ _ a ha
              have : ¬ cfg.stepHeightThreshold < a - h := by
                have : a - h ≤ base - pit := by linarith
                linarith
              rw [decide_eq_false this]
              rfl

/-- Concrete configuration used by the witnesses. -/
def cfgW : Config :=
  { traversabilityDefault := 1/2, traversabilityThreshold := 1/2,
    stepHeightThreshold := 1/10, slopeThreshold := 3/10,
    maxInclineAngle := 1, inclinationSampleSpacing := 1,
    neighborhoodRadius := 2,
    footprintVertices := [(-1, -1), (1, -1), (1, 1), (-1, 1)] }

/-- Concrete 2 by 2 traversability raster used by the witnesses. -/
def travW : GridMap :=
  { rows := 2, cols := 2, resolution := 1, originX := 0, originY := 0,
    frame := "map",
    layers := [("traversability", [some 1, some 1, some 1, some 1]),
               ("step", [some 1, some 1, some 1, some 1]),
               ("slope", [some 1, some 1, some 1, some 1]),
               ("roughness", [some 1, some 1, some 1, some 1])] }

/-- Concrete 2 by 2 elevation raster used by the witnesses. -/
def elevW : GridMap :=
  { rows := 2, cols := 2, resolution := 1, originX := 0, originY := 0,
    frame := "map",
    layers := [("elevation", [some 0, some 0, some 0, some 0])] }

/-- Concrete square polygon covering all of `travW`. -/
def polyW : List (ℚ × ℚ) := [(0, 0), (2, 0), (2, 2), (0, 2)]

/-- Concrete deterministic pipeline used by the witnesses: constant derived
layers over the elevation raster's cells. -/
def pipeW : Pipeline := fun m =>
  Except.ok [("traversability", (allCells m).map (fun _ => some 1)),
             ("step", (allCells m).map (fun _ => some 1)),
             ("slope", (allCells m).map (fun _ => some 1)),
             ("roughness", (allCells m).map (fun _ => some 1))]

/-- Concrete invalid raster (no layers at all) used by the witnesses. -/
def badW : GridMap :=
  { rows := 1, cols := 1, resolution := 1, originX := 0, originY := 0,
    frame := "map", layers := [] }

/-- Concrete state holding only the elevation raster. -/
def stateW : TravState :=
  { elevationMap := some elevW, traversabilityMap := none,
    nTraversable := 0, nNotTraversable := 0 }

/-- Concrete two-waypoint path used by the witnesses. -/
def pathW : FootprintPath :=
  { waypoints := [{ pos := (1, 1), rot := (1, 0) }, { pos := (1, 1), rot := (1, 0) }],
    radius := 0 }

theorem checkFootprintPath_spec_witness :
    (checkFootprintPath cfgW travW elevW pathW).score =
      (waypointScores cfgW travW pathW.radius pathW.waypoints).sum /
        ((waypointScores cfgW travW pathW.radius pathW.waypoints).length : ℚ) :=
  (checkFootprintPath_spec cfgW travW elevW pathW).2.1

theorem isTraversable_polygon_spec_witness :
    (1 : ℚ) = polygonScore cfgW travW polyW ∧
    (true = true ↔ cfgW.traversabilityThreshold ≤ (1 : ℚ)) :=
  (isTraversable_polygon_spec cfgW travW polyW).2 true 1 (by with_unfolding_all rfl)

theorem ingestion_compute_atomic_witness :
    (setElevationMap badW initialState).1 = initialState ∧
    (setTraversabilityMap badW initialState).1 = initialState ∧
    (computeTraversability cfgW pipeW initialState).1 = initialState :=
  ⟨(ingestion_compute_atomic cfgW pipeW badW initialState).1 (by with_unfolding_all rfl),
   (ingestion_compute_atomic cfgW pipeW badW initialState).2.1 (by with_unfolding_all rfl),
   (ingestion_compute_atomic cfgW pipeW badW initialState).2.2 (by with_unfolding_all rfl)⟩

theorem traversabilityFootprint_spec_witness :
    getLayer (traversabilityFootprint cfgW (0, 1) travW) "traversability" =
      getLayer travW "traversability" :=
  (traversabilityFootprint_spec cfgW (0, 1) travW).2.2 "traversability"
    (by decide) (by decide)

theorem computeTraversability_idempotent_witness :
    ((computeTraversability cfgW pipeW
        ((computeTraversability cfgW pipeW stateW).1)).1).traversabilityMap =
      ((computeTraversability cfgW pipeW stateW).1).traversabilityMap :=
  computeTraversability_idempotent cfgW pipeW stateW
    ((computeTraversability cfgW pipeW stateW).1)
    ((computeTraversability cfgW pipeW
        ((computeTraversability cfgW pipeW stateW).1)).1)
    (by with_unfolding_all rfl) (by with_unfolding_all rfl)

theorem setTraversabilityMap_roundTrip_witness :
    getTraversabilityMap ((setTraversabilityMap travW initialState).1) =
      Except.ok travW :=
  setTraversabilityMap_roundTrip travW initialState
    ((setTraversabilityMap travW initialState).1) (by with_unfolding_all rfl)

theorem computeTraversability_counter_consistency_witness :
    ((computeTraversability cfgW pipeW stateW).1).nTraversable +
        ((computeTraversability cfgW pipeW stateW).1).nNotTraversable =
      knownCount (travValues ((computeTraversability cfgW pipeW stateW).1)) :=
  computeTraversability_counter_consistency cfgW pipeW stateW
    ((computeTraversability cfgW pipeW stateW).1) (by with_unfolding_all rfl)

theorem checkInclination_degenerate_and_flat_witness :
    checkInclination cfgW elevW (0, 0) (0, 0) = true ∧
    checkInclination cfgW elevW (1/2, 1/2) (3/2, 1/2) = true :=
  ⟨(checkInclination_degenerate_and_flat cfgW elevW (0, 0) (0, 0)).1 rfl,
   (checkInclination_degenerate_and_flat cfgW elevW (1/2, 1/2) (3/2, 1/2)).2
      (by with_unfolding_all decide) (by with_unfolding_all decide)⟩

theorem checkForStep_pit_rejected_witness :
    checkForStep cfgW (pitMap 5 5 2 2 0 (-1/20)) 2 2 = true :=
  checkForStep_pit_rejected cfgW 5 5 2 2 0 (-1/20)
    (by with_unfolding_all decide) (by with_unfolding_all decide) 2 2

theorem printTraversableFraction_denominator_after_compute_witness :
    fractionDenominator ((computeTraversability cfgW pipeW stateW).1) ≠ 0 :=
  printTraversableFraction_denominator_after_compute cfgW pipeW stateW
    ((computeTraversability cfgW pipeW stateW).1)
    (by with_unfolding_all rfl) (by with_unfolding_all decide)

end TraversabilityEstimation
